import Mathlib

set_option maxHeartbeats 1000000

/-
Verification development for the `wizardhat.plot` module (file
src/wizardhat/plot/plot.py), a vispy-based stacked line plotter.

Shallow embedding conventions:
* Python floats are modelled as real numbers (`ℝ`); `math.exp`, `np.tanh`,
  `np.sqrt` become `Real.exp`, `Real.tanh`, `Real.sqrt`.
* The 2D numpy array returned by the active data source's `unstructured`
  attribute is modelled as a `Snapshot`: a row count, a column count and an
  entry function (entries outside the nominal bounds are never consulted).
* The mutable fields of a `Lines` canvas that the claims are about are
  collected in `LinesState`; each event handler becomes a pure function
  from state to state.
* `np.int32` applied to a float in range truncates toward zero; this is
  `npInt32` below.
* `gloo` buffer objects are modelled by the lists of values last written
  into them (`set_data` replaces the whole contents, resizing the buffer).
* Text formatting of the quality readout (`'%.2f' % sd`) is external
  display concern; the label model stores the real number being shown.
-/

namespace WizardHat

/-- Opaque model of a seaborn color: the palette it came from and its
position inside that palette. -/
structure SBColor where
  palette : String
  idx : ℕ
deriving DecidableEq

/-- The vispy color string used at label construction. -/
def white : SBColor := ⟨"white", 0⟩

/-- Model of `seaborn.color_palette(name, n)`: an ordered list of `n`
colors drawn from the named palette. -/
def color_palette (name : String) (n : ℕ) : List SBColor :=
  (List.range n).map (fun i => ⟨name, i⟩)

/-- Values stored in the `params` dict of a `Lines` instance. -/
inductive ParamVal where
  | str (s : String)
  | num (r : ℝ)
  | colors (cs : List SBColor)

/-- The possible shapes of the `plot_params` argument, as `dict.update`
distinguishes them: `None` (replaced by an empty dict before the update),
a key-value mapping, an iterable of key-value pairs (also accepted by
`dict.update`), or anything else (raises `TypeError`). -/
inductive PlotParamsArg where
  | noneArg
  | mapping (entries : List (String × ParamVal))
  | pairsList (entries : List (String × ParamVal))
  | nonIterable

/-- Whether the argument is a key-value mapping proper. -/
def PlotParamsArg.isMapping : PlotParamsArg → Bool
  | .mapping _ => true
  | _ => false

/-- Python dict assignment `d[k] = v`: overwrite in place if the key is
present, else append at the end (insertion order is preserved). -/
def setKey (d : List (String × ParamVal)) (k : String) (v : ParamVal) :
    List (String × ParamVal) :=
  if d.any (fun p => p.1 == k) then
    d.map (fun p => if p.1 == k then (k, v) else p)
  else d ++ [(k, v)]

/-- Python `base.update(upd)` for dicts: assign every pair of `upd` into
`base`, in order. -/
def dictUpdate (base upd : List (String × ParamVal)) :
    List (String × ParamVal) :=
  upd.foldl (fun acc kv => setKey acc kv.1 kv.2) base

/-- The default `params` dict built in `Lines.__init__`. -/
def defaultParams (n_lines : ℕ) : List (String × ParamVal) :=
  [("title", ParamVal.str "Plotter"),
   ("font_size", ParamVal.num 48),
   ("scale", ParamVal.num 500),
   ("palette", ParamVal.colors (color_palette "RdBu_r" n_lines)),
   ("quality_palette", ParamVal.colors ((color_palette "RdYlGn" 11).reverse))]

/-- The `try: ... self.params.update(plot_params) except TypeError: raise`
block of `Lines.__init__`: builds the defaults and applies the update,
raising for a non-iterable argument. -/
def paramsOf (n_lines : ℕ) (arg : PlotParamsArg) :
    Except String (List (String × ParamVal)) :=
  match arg with
  | .noneArg => .ok (dictUpdate (defaultParams n_lines) [])
  | .mapping es => .ok (dictUpdate (defaultParams n_lines) es)
  | .pairsList es => .ok (dictUpdate (defaultParams n_lines) es)
  | .nonIterable => .error "plot_params not a dict or key-value pairs list"

/-- Numeric lookup in the params dict (`self.params['scale']` etc.). -/
def lookupNum (d : List (String × ParamVal)) (k : String) : ℝ :=
  match d.lookup k with
  | some (ParamVal.num r) => r
  | _ => 0

/-- Color-list lookup in the params dict. -/
def lookupColors (d : List (String × ParamVal)) (k : String) : List SBColor :=
  match d.lookup k with
  | some (ParamVal.colors cs) => cs
  | _ => []

/-- Mutable visual attributes of one channel-name `TextVisual`. -/
structure NameLabel where
  text : String
  color : SBColor
  font_size : Option ℤ

/-- Mutable visual attributes of one quality-readout `TextVisual`; `shown`
is the number rendered by `'%.2f' % sd` (none before the first frame). -/
structure QualityLabel where
  shown : Option ℝ
  color : SBColor
  font_size : Option ℤ

/-- Default labels used as fallbacks for out-of-range list reads. -/
def defaultNL : NameLabel := { text := "", color := white, font_size := none }

/-- Default quality label used as fallback for out-of-range list reads. -/
def defaultQL : QualityLabel := { shown := none, color := white, font_size := none }

/-- The state of a `Lines` canvas relevant to the claims: the data-source
cycle, the construction-time sizes, the params-derived constants, the gloo
buffers (modelled by their current contents) and the label entities. -/
structure LinesState where
  nSources : ℕ
  cyclePos : ℕ
  activeIdx : ℕ
  n_lines : ℕ
  n_points : ℕ
  scaleParam : ℝ
  quality_palette : List SBColor
  a_color : List SBColor
  a_index : List (ℝ × ℝ × ℝ)
  a_position : List ℝ
  u_scale : ℝ × ℝ
  names : List NameLabel
  quality : List QualityLabel

/-- The successful construction path of `Lines.__init__` and
`Lines._set_program_params`, given the already-merged params dict:
`itertools.cycle` starts by yielding index 0, the position buffer is
`np.zeros((n_lines, n_points))` flattened, `u_scale` is `(1., 1.)`, the
static index buffer pairs each line index with each sample index, and the
labels are built from the channel names with color `'white'`. -/
def mkLinesState (nSources n_points : ℕ) (ch_names : List String)
    (params : List (String × ParamVal)) : LinesState :=
  let n_lines := ch_names.length
  { nSources := nSources
    cyclePos := 0
    activeIdx := 0
    n_lines := n_lines
    n_points := n_points
    scaleParam := lookupNum params "scale"
    quality_palette := lookupColors params "quality_palette"
    a_color := (lookupColors params "palette").flatMap
      (fun c => List.replicate n_points c)
    a_index := (List.range n_lines).flatMap
      (fun l => (List.range n_points).map (fun p => ((0 : ℝ), (l : ℝ), (p : ℝ))))
    a_position := List.replicate (n_lines * n_points) 0
    u_scale := (1, 1)
    names := ch_names.map (fun nm => { text := nm, color := white, font_size := none })
    quality := ch_names.map (fun _ => { shown := none, color := white, font_size := none }) }

/-- Full construction: merge the params (this is the only raising step),
then build the state. -/
def mkLines (nSources n_points : ℕ) (ch_names : List String)
    (arg : PlotParamsArg) : Except String LinesState :=
  (paramsOf ch_names.length arg).map (mkLinesState nSources n_points ch_names)

/-- Boolean success test for the construction result. -/
def exceptIsOk : Except String LinesState → Bool
  | .ok _ => true
  | .error _ => false

/-- Key names the handler distinguishes (`'D'`, `'+'`, `'-'`, anything else). -/
inductive Key where
  | D
  | plus
  | minus
  | other
deriving DecidableEq

/-- Model of `Lines.on_key_press`: `'D'` advances the data-source cycle
(`next` on `itertools.cycle(range(n))` yields indices mod `n`); `'+'`/`'-'`
multiply the time scale by `exp(∓0.05)` and the amplitude scale by
`exp(0 * dx)`, each result clamped below by 1. -/
noncomputable def on_key_press (k : Key) (s : LinesState) : LinesState :=
  let s1 := if k = Key.D then
      { s with cyclePos := (s.cyclePos + 1) % s.nSources,
               activeIdx := (s.cyclePos + 1) % s.nSources }
    else s
  if k = Key.plus ∨ k = Key.minus then
    let dx : ℝ := if k = Key.plus then -0.05 else 0.05
    { s1 with u_scale := (max 1 (s1.u_scale.1 * Real.exp (1.0 * dx)),
                          max 1 (s1.u_scale.2 * Real.exp (0.0 * dx))) }
  else s1

/-- Model of `np.sign` on a real scalar. -/
noncomputable def npSign (x : ℝ) : ℝ := if 0 < x then 1 else if x < 0 then -1 else 0

/-- Model of `Lines.on_mouse_wheel`: the vertical wheel delta is reduced to
its sign, the time scale is multiplied by `exp(0 * dx)` clamped below by 1,
the amplitude scale by `exp(2 * dx)` clamped below by 0.01. -/
noncomputable def on_mouse_wheel (delta : ℝ) (s : LinesState) : LinesState :=
  let dx := npSign delta * 0.05
  { s with u_scale := (max 1 (s.u_scale.1 * Real.exp (0.0 * dx)),
                       max 0.01 (s.u_scale.2 * Real.exp (2.0 * dx))) }

/-- A snapshot of the active data source's `unstructured` array: rows are
time-ordered samples, column 0 is the index/time column, the remaining
columns are channel values. -/
structure Snapshot where
  rows : ℕ
  cols : ℕ
  entry : ℕ → ℕ → ℝ

/-- One entry of the normalized signal `(plot_data - plot_data.mean(axis=0))
/ scale` where `plot_data = unstructured[:, 1:]`: row `r`, channel `c`. -/
noncomputable def plotDataAt (snap : Snapshot) (scale : ℝ) (r c : ℕ) : ℝ :=
  (snap.entry r (c + 1) -
    (∑ i ∈ Finset.range snap.rows, snap.entry i (c + 1)) / snap.rows) / scale

/-- Model of `np.std` (population standard deviation, `ddof=0`) over the
window of `len` consecutive values starting at index `start`. -/
noncomputable def npStd (len start : ℕ) (f : ℕ → ℝ) : ℝ :=
  let m := (∑ i ∈ Finset.range len, f (start + i)) / len
  Real.sqrt ((∑ i ∈ Finset.range len, (f (start + i) - m) ^ 2) / len)

/-- The per-channel quality statistic of `Lines.update_plot` before the
display reversal: `np.std(plot_data[-256:], axis=0)` on channel `c`
(Python's negative slice keeps the last `min 256 rows` rows), multiplied
back by the scale constant. -/
noncomputable def chanSd (snap : Snapshot) (scale : ℝ) (c : ℕ) : ℝ :=
  let wLen := min 256 snap.rows
  let wStart := snap.rows - wLen
  npStd wLen wStart (fun r => plotDataAt snap scale r c) * scale

/-- Conversion `np.int32` applied to a float whose value fits in 32 bits:
truncation toward zero. -/
noncomputable def npInt32 (x : ℝ) : ℤ := if 0 ≤ x then ⌊x⌋ else ⌈x⌉

/-- The quality category `co = np.int32(np.tanh((sd - 30) / 15)*5 + 5)`
computed in `Lines.update_plot` from one (already display-ordered)
standard deviation. -/
noncomputable def co (sd : ℝ) : ℤ := npInt32 (Real.tanh ((sd - 30) / 15) * 5 + 5)

/-- Model of `np.ndarray.ravel` applied to a matrix of the given shape:
row-major linearization. -/
noncomputable def ravel2d (rows cols : ℕ) (M : ℕ → ℕ → ℝ) : List ℝ :=
  List.ofFn (fun i : Fin (rows * cols) => M ((i : ℕ) / cols) ((i : ℕ) % cols))

/-- Model of `Lines.update_plot` on one snapshot of the active source:
compute the normalized signal, take per-channel standard deviations of the
trailing window in reversed channel order (`[::-1]`), update every label's
text/color/size from the 11-entry quality palette (the loop runs over
`range(n_lines)` and leaves any further list elements alone), and write the
transposed, ravelled signal into the position buffer (`set_data` replaces
the buffer contents). Python list indexing `quality_palette[co[l]]` is
modelled by `getD` at `toNat`; `co` is provably in `[0, 9]` so the fallback
is never taken. -/
noncomputable def update_plot (snap : Snapshot) (s : LinesState) : LinesState :=
  let C := snap.cols - 1
  let sdRev : ℕ → ℝ := fun l => chanSd snap s.scaleParam (C - 1 - l)
  let quality := s.quality.mapIdx (fun l q =>
    if l < s.n_lines then
      { shown := some (sdRev l),
        color := s.quality_palette.getD (co (sdRev l)).toNat white,
        font_size := some (12 + co (sdRev l)) }
    else q)
  let names := s.names.mapIdx (fun l nm =>
    if l < s.n_lines then
      { nm with color := s.quality_palette.getD (co (sdRev l)).toNat white,
                font_size := some (12 + co (sdRev l)) }
    else nm)
  { s with quality := quality, names := names,
           a_position := ravel2d C snap.rows
             (fun c r => plotDataAt snap s.scaleParam r c) }

/-- An input event: a named key press or a mouse-wheel scroll with a
vertical delta. -/
inductive Ev where
  | key (k : Key)
  | wheel (delta : ℝ)

/-- Dispatch one event to its handler. -/
noncomputable def stepEv (s : LinesState) (e : Ev) : LinesState :=
  match e with
  | .key k => on_key_press k s
  | .wheel d => on_mouse_wheel d s

/-- Run a sequence of input events from a state. -/
noncomputable def runEvents (evs : List Ev) (s : LinesState) : LinesState :=
  evs.foldl stepEv s

/-- Run a sequence of frame updates, one snapshot per frame. -/
noncomputable def runUpdates (snaps : List Snapshot) (s : LinesState) : LinesState :=
  snaps.foldl (fun st sn => update_plot sn st) s

/-- Modelled from the spec: the quality-category formula as §4.1 of the
specification words it, `clamp_to_[0,10]( round( tanh((sd − 30)/15) × 5 + 5 ) )`,
with round-to-nearest; stated for comparison with the source-derived `co`. -/
noncomputable def specCategory (sd : ℝ) : ℤ :=
  min 10 (max 0 (round (Real.tanh ((sd - 30) / 15) * 5 + 5)))

/-- A freshly constructed default-configuration state with four channels. -/
noncomputable def exInit : LinesState :=
  mkLinesState 1 4 ["TP9", "AF7", "AF8", "TP10"] (defaultParams 4)

/-- A freshly constructed default-configuration state with one channel and
two samples per channel. -/
noncomputable def exState1 : LinesState :=
  mkLinesState 1 2 ["ch1"] (defaultParams 1)

/-- A freshly constructed default-configuration state with two channels. -/
noncomputable def exState2 : LinesState :=
  mkLinesState 1 2 ["c1", "c2"] (defaultParams 2)

/- Helper lemmas. -/

lemma tanh_exp_form (x : ℝ) :
    Real.tanh x = (Real.exp (2 * x) - 1) / (Real.exp (2 * x) + 1) := by
  have hx : (0 : ℝ) < Real.exp x := Real.exp_pos x
  have h1 : Real.exp x + (Real.exp x)⁻¹ ≠ 0 := by positivity
  have h2 : Real.exp x * Real.exp x + 1 ≠ 0 := by positivity
  rw [Real.tanh_eq_sinh_div_cosh, Real.sinh_eq, Real.cosh_eq, Real.exp_neg,
    two_mul, Real.exp_add]
  field_simp

lemma tanh_lt_one' (x : ℝ) : Real.tanh x < 1 := by
  rw [tanh_exp_form]
  have h := Real.exp_pos (2 * x)
  rw [div_lt_one (by linarith)]
  linarith

lemma neg_one_lt_tanh' (x : ℝ) : -1 < Real.tanh x := by
  rw [tanh_exp_form]
  have h := Real.exp_pos (2 * x)
  rw [lt_div_iff₀ (by linarith)]
  linarith

lemma tanh_val_pos (sd : ℝ) : 0 < Real.tanh ((sd - 30) / 15) * 5 + 5 := by
  have := neg_one_lt_tanh' ((sd - 30) / 15)
  linarith

lemma tanh_val_lt_ten (sd : ℝ) : Real.tanh ((sd - 30) / 15) * 5 + 5 < 10 := by
  have := tanh_lt_one' ((sd - 30) / 15)
  linarith

lemma co_eq_floor (sd : ℝ) :
    co sd = ⌊Real.tanh ((sd - 30) / 15) * 5 + 5⌋ := by
  unfold co npInt32
  rw [if_pos (tanh_val_pos sd).le]

lemma co_bounds (sd : ℝ) : 0 ≤ co sd ∧ co sd ≤ 9 := by
  rw [co_eq_floor]
  constructor
  · exact Int.floor_nonneg.mpr (tanh_val_pos sd).le
  · have h10 : ⌊Real.tanh ((sd - 30) / 15) * 5 + 5⌋ < 10 := by
      apply Int.floor_lt.mpr
      push_cast
      exact tanh_val_lt_ten sd
    omega

lemma exp_28_3_ge_19 : (19 : ℝ) ≤ Real.exp (28 / 3) := by
  have h2 : (2 : ℝ) < Real.exp 1 := by
    have := Real.exp_one_gt_d9
    linarith
  have h9 : (512 : ℝ) ≤ Real.exp 9 := by
    have hp : (2 : ℝ) ^ 9 ≤ Real.exp 1 ^ 9 :=
      pow_le_pow_left₀ (by norm_num) h2.le 9
    have he : Real.exp 1 ^ 9 = Real.exp 9 := by
      rw [← Real.exp_nat_mul]
      norm_num
    rw [he] at hp
    norm_num at hp
    linarith
  have hm : Real.exp 9 ≤ Real.exp (28 / 3) :=
    Real.exp_le_exp.mpr (by norm_num)
  linarith

lemma tanh_14_3_ge : (0.9 : ℝ) ≤ Real.tanh (14 / 3) := by
  rw [tanh_exp_form]
  have h19 : (19 : ℝ) ≤ Real.exp (2 * (14 / 3)) := by
    have h : (2 : ℝ) * (14 / 3) = 28 / 3 := by norm_num
    rw [h]
    exact exp_28_3_ge_19
  have hpos : (0 : ℝ) < Real.exp (2 * (14 / 3)) + 1 := by positivity
  rw [le_div_iff₀ hpos]
  linarith

lemma co_100 : co 100 = 9 := by
  rw [co_eq_floor]
  have h1 : ((100 : ℝ) - 30) / 15 = 14 / 3 := by norm_num
  rw [h1]
  have h2 := tanh_14_3_ge
  have h3 := tanh_lt_one' (14 / 3 : ℝ)
  apply Int.floor_eq_iff.mpr
  constructor
  · push_cast; linarith
  · push_cast; linarith

lemma specCategory_100 : specCategory 100 = 10 := by
  unfold specCategory
  have h1 : ((100 : ℝ) - 30) / 15 = 14 / 3 := by norm_num
  rw [h1]
  have h2 := tanh_14_3_ge
  have h3 := tanh_lt_one' (14 / 3 : ℝ)
  have hr : round (Real.tanh (14 / 3 : ℝ) * 5 + 5) = 10 := by
    rw [round_eq]
    apply Int.floor_eq_iff.mpr
    constructor
    · push_cast; linarith
    · push_cast; linarith
  rw [hr]
  norm_num

lemma getD_mapIdx {α : Type} (l : List α) (f : ℕ → α → α) (i : ℕ)
    (h : i < l.length) (d : α) :
    (l.mapIdx f).getD i d = f i (l.getD i d) := by
  have h' : i < (l.mapIdx f).length := by
    rw [List.length_mapIdx]; exact h
  rw [List.getD_eq_getElem?_getD, List.getElem?_eq_getElem h',
      List.getD_eq_getElem?_getD, List.getElem?_eq_getElem h]
  simp [List.getElem_mapIdx]

lemma getElem?_ravel2d (rows cols : ℕ) (M : ℕ → ℕ → ℝ) (r c : ℕ)
    (hr : r < rows) (hc : c < cols) :
    (ravel2d rows cols M)[r * cols + c]? = some (M r c) := by
  have hidx : r * cols + c < rows * cols := by
    calc r * cols + c < r * cols + cols := by omega
    _ = (r + 1) * cols := by ring
    _ ≤ rows * cols := Nat.mul_le_mul_right cols (by omega)
  have hlen : r * cols + c < (ravel2d rows cols M).length := by
    rw [ravel2d, List.length_ofFn]; exact hidx
  rw [List.getElem?_eq_getElem hlen]
  congr 1
  simp only [ravel2d, List.getElem_ofFn]
  have hdiv : (r * cols + c) / cols = r := by
    rw [Nat.mul_comm r cols, Nat.mul_add_div (by omega), Nat.div_eq_of_lt hc]
    omega
  have hmod : (r * cols + c) % cols = c := by
    rw [Nat.mul_comm r cols, Nat.mul_add_mod, Nat.mod_eq_of_lt hc]
  rw [hdiv, hmod]

lemma length_ravel2d (rows cols : ℕ) (M : ℕ → ℕ → ℝ) :
    (ravel2d rows cols M).length = rows * cols := by
  rw [ravel2d, List.length_ofFn]

lemma onkey_scale_y (k : Key) (s : LinesState) (hk : k = Key.plus ∨ k = Key.minus) :
    (on_key_press k s).u_scale.2 = max 1 s.u_scale.2 := by
  rcases hk with hk | hk <;> subst hk <;>
    simp [on_key_press] <;> norm_num

lemma onkey_plus_pair (s : LinesState) :
    (on_key_press Key.plus s).u_scale =
      (max 1 (s.u_scale.1 * Real.exp (-0.05)), max 1 s.u_scale.2) := by
  have h1 := onkey_scale_y Key.plus s (Or.inl rfl)
  have h2 : (on_key_press Key.plus s).u_scale.1 = max 1 (s.u_scale.1 * Real.exp (-0.05)) := by
    simp [on_key_press]
    norm_num
  rw [← h1, ← h2]

lemma onkey_minus_pair (s : LinesState) :
    (on_key_press Key.minus s).u_scale =
      (max 1 (s.u_scale.1 * Real.exp 0.05), max 1 s.u_scale.2) := by
  have h1 := onkey_scale_y Key.minus s (Or.inr rfl)
  have h2 : (on_key_press Key.minus s).u_scale.1 = max 1 (s.u_scale.1 * Real.exp 0.05) := by
    simp [on_key_press]
    norm_num
  rw [← h1, ← h2]

lemma onkey_D_u_scale (s : LinesState) :
    (on_key_press Key.D s).u_scale = s.u_scale := by
  simp [on_key_press]

lemma onkey_other_eq (s : LinesState) :
    on_key_press Key.other s = s := by
  simp [on_key_press]

lemma wheel_pair (delta : ℝ) (s : LinesState) :
    (on_mouse_wheel delta s).u_scale =
      (max 1 (s.u_scale.1 * Real.exp (0.0 * (npSign delta * 0.05))),
       max 0.01 (s.u_scale.2 * Real.exp (2.0 * (npSign delta * 0.05)))) := rfl

lemma runEvents_nil (s : LinesState) : runEvents [] s = s := rfl

lemma runEvents_cons (e : Ev) (evs : List Ev) (s : LinesState) :
    runEvents (e :: evs) s = runEvents evs (stepEv s e) := rfl

lemma runEvents_append (a b : List Ev) (s : LinesState) :
    runEvents (a ++ b) s = runEvents b (runEvents a s) := by
  unfold runEvents
  rw [List.foldl_append]

lemma stepEv_scale_bounds (e : Ev) (s : LinesState)
    (h1 : 1 ≤ s.u_scale.1) (h2 : 0.01 ≤ s.u_scale.2) :
    1 ≤ (stepEv s e).u_scale.1 ∧ 0.01 ≤ (stepEv s e).u_scale.2 := by
  cases e with
  | key k =>
    cases k with
    | D =>
      show 1 ≤ (on_key_press Key.D s).u_scale.1 ∧ _
      rw [onkey_D_u_scale]
      exact ⟨h1, h2⟩
    | plus =>
      have hp : (stepEv s (Ev.key Key.plus)).u_scale =
          (max 1 (s.u_scale.1 * Real.exp (-0.05)), max 1 s.u_scale.2) :=
        onkey_plus_pair s
      rw [hp]
      refine ⟨le_max_left 1 _, le_trans (by norm_num : (0.01 : ℝ) ≤ 1) (le_max_left 1 _)⟩
    | minus =>
      have hp : (stepEv s (Ev.key Key.minus)).u_scale =
          (max 1 (s.u_scale.1 * Real.exp 0.05), max 1 s.u_scale.2) :=
        onkey_minus_pair s
      rw [hp]
      refine ⟨le_max_left 1 _, le_trans (by norm_num : (0.01 : ℝ) ≤ 1) (le_max_left 1 _)⟩
    | other =>
      show 1 ≤ (on_key_press Key.other s).u_scale.1 ∧ _
      rw [onkey_other_eq]
      exact ⟨h1, h2⟩
  | wheel d =>
    show 1 ≤ (on_mouse_wheel d s).u_scale.1 ∧ _
    rw [wheel_pair]
    exact ⟨le_max_left 1 _, le_max_left 0.01 _⟩

lemma runEvents_scale_bounds (evs : List Ev) :
    ∀ s : LinesState, 1 ≤ s.u_scale.1 → 0.01 ≤ s.u_scale.2 →
      1 ≤ (runEvents evs s).u_scale.1 ∧ 0.01 ≤ (runEvents evs s).u_scale.2 := by
  induction evs with
  | nil => intro s h1 h2; rw [runEvents_nil]; exact ⟨h1, h2⟩
  | cons e rest ih =>
    intro s h1 h2
    rw [runEvents_cons]
    have hs := stepEv_scale_bounds e s h1 h2
    exact ih (stepEv s e) hs.1 hs.2

lemma minus_run (n : ℕ) :
    ∀ (s : LinesState) (c : ℝ), 0 ≤ c → s.u_scale = (Real.exp c, 1) →
      (runEvents (List.replicate n (Ev.key Key.minus)) s).u_scale =
        (Real.exp (c + 0.05 * n), 1) := by
  induction n with
  | zero =>
    intro s c _ hs
    rw [List.replicate_zero, runEvents_nil, hs]
    norm_num
  | succ n ih =>
    intro s c hc hs
    rw [List.replicate_succ, runEvents_cons]
    have hstep : (stepEv s (Ev.key Key.minus)).u_scale = (Real.exp (c + 0.05), 1) := by
      show (on_key_press Key.minus s).u_scale = _
      rw [onkey_minus_pair, hs]
      have hx : Real.exp c * Real.exp 0.05 = Real.exp (c + 0.05) := (Real.exp_add c 0.05).symm
      simp only [hx]
      rw [max_eq_right (Real.one_le_exp (by linarith))]
      norm_num
    have := ih (stepEv s (Ev.key Key.minus)) (c + 0.05) (by linarith) hstep
    rw [this]
    push_cast
    ring_nf

lemma plus_run (j : ℕ) :
    ∀ (s : LinesState) (c : ℝ), 0 ≤ c → s.u_scale = (Real.exp (c + 0.05 * j), 1) →
      (runEvents (List.replicate j (Ev.key Key.plus)) s).u_scale = (Real.exp c, 1) := by
  induction j with
  | zero =>
    intro s c _ hs
    rw [List.replicate_zero, runEvents_nil, hs]
    norm_num
  | succ j ih =>
    intro s c hc hs
    rw [List.replicate_succ, runEvents_cons]
    have hstep : (stepEv s (Ev.key Key.plus)).u_scale = (Real.exp (c + 0.05 * j), 1) := by
      show (on_key_press Key.plus s).u_scale = _
      rw [onkey_plus_pair, hs]
      have hx : Real.exp (c + 0.05 * (j + 1 : ℕ)) * Real.exp (-0.05) =
          Real.exp (c + 0.05 * j) := by
        rw [← Real.exp_add]
        push_cast
        ring_nf
      simp only [hx]
      rw [max_eq_right (Real.one_le_exp (by positivity))]
      norm_num
    exact ih (stepEv s (Ev.key Key.plus)) c hc hstep

lemma plus_stay (j : ℕ) :
    ∀ s : LinesState, s.u_scale = (1, 1) →
      (runEvents (List.replicate j (Ev.key Key.plus)) s).u_scale = (1, 1) := by
  induction j with
  | zero =>
    intro s hs
    rw [List.replicate_zero, runEvents_nil, hs]
  | succ j ih =>
    intro s hs
    rw [List.replicate_succ, runEvents_cons]
    have hstep : (stepEv s (Ev.key Key.plus)).u_scale = (1, 1) := by
      show (on_key_press Key.plus s).u_scale = _
      rw [onkey_plus_pair, hs]
      have hlt : Real.exp (-0.05) < 1 := Real.exp_lt_one_iff.mpr (by norm_num)
      simp only []
      rw [one_mul, max_eq_left hlt.le]
      norm_num
    exact ih (stepEv s (Ev.key Key.plus)) hstep

/-- The concrete snapshot used for the C2 counterexample: two samples of a
single channel with values 0 and 200 (column 0 is the index column). -/
def snapC2 : Snapshot := ⟨2, 2, fun r c => if c = 1 ∧ r = 1 then 200 else 0⟩

lemma chanSd_snapC2 : chanSd snapC2 500 0 = 100 := by
  unfold chanSd npStd plotDataAt
  have hrows : snapC2.rows = 2 := rfl
  have hmin : min 256 snapC2.rows = 2 := rfl
  rw [hmin, hrows]
  norm_num [Finset.sum_range_succ, snapC2]
  rw [show ((25:ℝ)) = 5 ^ 2 by norm_num]
  rw [Real.sqrt_sq (by norm_num : (0:ℝ) ≤ 5)]
  norm_num

lemma update_plot_quality_getD (snap : Snapshot) (s : LinesState) (l : ℕ)
    (hl : l < s.quality.length) (hn : l < s.n_lines) :
    (update_plot snap s).quality.getD l defaultQL =
      { shown := some (chanSd snap s.scaleParam (snap.cols - 1 - 1 - l)),
        color := s.quality_palette.getD
          (co (chanSd snap s.scaleParam (snap.cols - 1 - 1 - l))).toNat white,
        font_size := some (12 + co (chanSd snap s.scaleParam (snap.cols - 1 - 1 - l))) } := by
  have hq : (update_plot snap s).quality = s.quality.mapIdx (fun l q =>
      if l < s.n_lines then
        { shown := some (chanSd snap s.scaleParam (snap.cols - 1 - 1 - l)),
          color := s.quality_palette.getD
            (co (chanSd snap s.scaleParam (snap.cols - 1 - 1 - l))).toNat white,
          font_size := some (12 + co (chanSd snap s.scaleParam (snap.cols - 1 - 1 - l))) }
      else q) := rfl
  rw [hq, getD_mapIdx _ _ l hl defaultQL, if_pos hn]

lemma update_plot_names_getD (snap : Snapshot) (s : LinesState) (l : ℕ)
    (hl : l < s.names.length) (hn : l < s.n_lines) :
    (update_plot snap s).names.getD l defaultNL =
      { text := (s.names.getD l defaultNL).text,
        color := s.quality_palette.getD
          (co (chanSd snap s.scaleParam (snap.cols - 1 - 1 - l))).toNat white,
        font_size := some (12 + co (chanSd snap s.scaleParam (snap.cols - 1 - 1 - l))) } := by
  have hq : (update_plot snap s).names = s.names.mapIdx (fun l nm =>
      if l < s.n_lines then
        { nm with
          color := s.quality_palette.getD (co (chanSd snap s.scaleParam (snap.cols - 1 - 1 - l))).toNat white,
          font_size := some (12 + co (chanSd snap s.scaleParam (snap.cols - 1 - 1 - l))) }
      else nm) := rfl
  rw [hq, getD_mapIdx _ _ l hl defaultNL, if_pos hn]

/-- C1 counterexample: from the freshly constructed state (scale pair
`(1, 1)`), pressing `'+'` once and then `'-'` once leaves the time-axis
scale at `exp 0.05`, which exceeds the original value 1 by more than 0.05 —
far outside floating-point tolerance.  The `'+'` press is absorbed by the
`max(1, ...)` floor, so the `'-'` press is not undone. -/
theorem claim_C1_counterexample :
    (runEvents [Ev.key Key.plus, Ev.key Key.minus] exInit).u_scale.1 = Real.exp 0.05 ∧
    exInit.u_scale.1 + 0.05 <
      (runEvents [Ev.key Key.plus, Ev.key Key.minus] exInit).u_scale.1 := by
  have h1 : (stepEv exInit (Ev.key Key.plus)).u_scale = (1, 1) := by
    show (on_key_press Key.plus exInit).u_scale = _
    rw [onkey_plus_pair]
    have hu : exInit.u_scale = (1, 1) := rfl
    rw [hu]
    have hlt : Real.exp (-0.05) < 1 := Real.exp_lt_one_iff.mpr (by norm_num)
    rw [show ((1:ℝ),(1:ℝ)).1 = (1:ℝ) from rfl, show ((1:ℝ),(1:ℝ)).2 = (1:ℝ) from rfl,
      one_mul, max_eq_left hlt.le, max_self]
  have h2 : (runEvents [Ev.key Key.plus, Ev.key Key.minus] exInit).u_scale =
      (Real.exp 0.05, 1) := by
    rw [runEvents_cons, runEvents_cons, runEvents_nil]
    show (on_key_press Key.minus (stepEv exInit (Ev.key Key.plus))).u_scale = _
    rw [onkey_minus_pair, h1]
    rw [show ((1:ℝ),(1:ℝ)).1 = (1:ℝ) from rfl, show ((1:ℝ),(1:ℝ)).2 = (1:ℝ) from rfl,
      one_mul, max_eq_right (Real.one_le_exp (by norm_num)), max_self]
  constructor
  · rw [h2]
  · rw [h2]
    show exInit.u_scale.1 + 0.05 < Real.exp 0.05
    have hexp := Real.add_one_lt_exp (by norm_num : (0.05 : ℝ) ≠ 0)
    have hu : exInit.u_scale.1 = 1 := rfl
    rw [hu]
    linarith

/-- C1 amended: the round-trip holds in the opposite order — pressing `'-'`
k times and then `'+'` k times restores the time-axis scale exactly —
while the claimed order (`'+'` k times then `'-'` k times) leaves the
time-axis scale at `exp(0.05 k)`, because every `'+'` press from the
initial state is absorbed by the floor at 1. -/
theorem claim_C1_amended (k : ℕ) :
    (runEvents (List.replicate k (Ev.key Key.minus) ++ List.replicate k (Ev.key Key.plus))
        exInit).u_scale.1 = exInit.u_scale.1 ∧
    (runEvents (List.replicate k (Ev.key Key.plus) ++ List.replicate k (Ev.key Key.minus))
        exInit).u_scale.1 = Real.exp (0.05 * k) := by
  have hinit : exInit.u_scale = (Real.exp 0, 1) := by rw [Real.exp_zero]; exact rfl
  constructor
  · have hm := minus_run k exInit 0 le_rfl hinit
    have hp := plus_run k (runEvents (List.replicate k (Ev.key Key.minus)) exInit) 0 le_rfl hm
    rw [runEvents_append, hp]
    show Real.exp 0 = exInit.u_scale.1
    rw [Real.exp_zero]
    exact rfl
  · have hs := plus_stay k exInit rfl
    have hm := minus_run k (runEvents (List.replicate k (Ev.key Key.plus)) exInit) 0 le_rfl
      (by rw [hs, Real.exp_zero])
    rw [runEvents_append, hm]
    show Real.exp (0 + 0.05 * k) = _
    norm_num

/-- C2 counterexample: a two-row, one-channel snapshot whose channel values
are 0 and 200 yields the exact standard deviation 100 during update-frame;
the code's category (visible through the font size `12 + co`) is 9 — the
value is truncated by `np.int32` — whereas the spec formula
`clamp(round(tanh((sd-30)/15)*5+5))` gives 10. -/
theorem claim_C2_counterexample :
    ((update_plot snapC2 exState1).quality.getD 0 defaultQL).shown = some 100 ∧
    ((update_plot snapC2 exState1).quality.getD 0 defaultQL).font_size ≠
      some (12 + specCategory 100) := by
  have hsd : chanSd snapC2 exState1.scaleParam (snapC2.cols - 1 - 1 - 0) = 100 := by
    have h1 : exState1.scaleParam = (500 : ℝ) := rfl
    have h2 : snapC2.cols - 1 - 1 - 0 = 0 := rfl
    rw [h1, h2, chanSd_snapC2]
  have hq := update_plot_quality_getD snapC2 exState1 0 (by decide) (by decide)
  rw [hq, hsd]
  refine ⟨rfl, ?_⟩
  rw [specCategory_100, co_100]
  simp

/-- C2 amended: the quality category is `np.int32` truncation (equal to the
floor, since the value is positive) of `tanh((sd - 30)/15)*5 + 5`, not
round-to-nearest; it always lies in [0, 9] and in particular never
reaches 10. -/
theorem claim_C2_amended (sd : ℝ) :
    co sd = ⌊Real.tanh ((sd - 30) / 15) * 5 + 5⌋ ∧ 0 ≤ co sd ∧ co sd ≤ 9 :=
  ⟨co_eq_floor sd, co_bounds sd⟩

/-- C3 counterexample: a list of key-value pairs is not a mapping, yet
construction succeeds — `dict.update` accepts iterables of pairs, exactly
as the code's own error message says. -/
theorem claim_C3_counterexample :
    PlotParamsArg.isMapping (PlotParamsArg.pairsList [("title", ParamVal.str "Custom")]) = false ∧
    exceptIsOk (mkLines 1 100 ["c1", "c2"]
      (PlotParamsArg.pairsList [("title", ParamVal.str "Custom")])) = true :=
  ⟨rfl, rfl⟩

/-- C3 amended: construction fails — with exactly the TypeError message
`"plot_params not a dict or key-value pairs list"` — if and only if
`plot_params` is non-iterable; omitted parameters, mappings and key-value
pair lists are all accepted, and there is no other explicit error path. -/
theorem claim_C3_amended (nS nP : ℕ) (ch_names : List String)
    (arg : PlotParamsArg) (msg : String) :
    mkLines nS nP ch_names arg = Except.error msg ↔
      (arg = PlotParamsArg.nonIterable ∧
       msg = "plot_params not a dict or key-value pairs list") := by
  cases arg <;> simp [mkLines, paramsOf, Except.map, eq_comm]

/-- C5 counterexample: after one downward scroll from the initial state the
amplitude scale is `exp(-0.1) < 1`; a subsequent `'+'` key press changes it
(to 1), so `'+'` does not leave the amplitude-axis scale unchanged on all
reachable states. -/
theorem claim_C5_counterexample :
    (on_key_press Key.plus (on_mouse_wheel (-3) exInit)).u_scale.2 ≠
      (on_mouse_wheel (-3) exInit).u_scale.2 := by
  have hw : (on_mouse_wheel (-3) exInit).u_scale = (1, Real.exp (-0.1)) := by
    rw [wheel_pair]
    have hsgn : npSign (-3 : ℝ) = -1 := by
      unfold npSign
      rw [if_neg (by norm_num), if_pos (by norm_num)]
    rw [hsgn]
    have hu : exInit.u_scale = (1, 1) := rfl
    rw [hu]
    have h1 : (0.0 : ℝ) * (-1 * 0.05) = 0 := by norm_num
    have h2 : (2.0 : ℝ) * (-1 * 0.05) = -0.1 := by norm_num
    rw [h1, h2, Real.exp_zero]
    have h9 : (0.01 : ℝ) ≤ Real.exp (-0.1) := by
      have := Real.add_one_lt_exp (by norm_num : (-0.1 : ℝ) ≠ 0)
      linarith
    rw [show ((1:ℝ),(1:ℝ)).1 = (1:ℝ) from rfl, show ((1:ℝ),(1:ℝ)).2 = (1:ℝ) from rfl,
      one_mul, one_mul, max_self, max_eq_right h9]
  have hlt : Real.exp (-0.1) < 1 := Real.exp_lt_one_iff.mpr (by norm_num)
  have hk : (on_key_press Key.plus (on_mouse_wheel (-3) exInit)).u_scale.2 = 1 := by
    rw [onkey_scale_y Key.plus _ (Or.inl rfl), hw]
    show max 1 (Real.exp (-0.1)) = 1
    rw [max_eq_left hlt.le]
  rw [hk, hw]
  show (1 : ℝ) ≠ Real.exp (-0.1)
  exact hlt.ne'

/-- C5 amended: a `'+'` or `'-'` key press sets the amplitude-axis scale to
`max 1` of its previous value — unchanged whenever it was at least 1, but
raised to exactly 1 whenever it was below 1 (as it can be after downward
scrolls). The time-axis scale is the only exponentially updated one. -/
theorem claim_C5_amended (k : Key) (s : LinesState)
    (hk : k = Key.plus ∨ k = Key.minus) :
    (on_key_press k s).u_scale.2 = max 1 s.u_scale.2 ∧
    (1 ≤ s.u_scale.2 → (on_key_press k s).u_scale.2 = s.u_scale.2) ∧
    (s.u_scale.2 < 1 → (on_key_press k s).u_scale.2 = 1) := by
  have h := onkey_scale_y k s hk
  exact ⟨h, fun h1 => by rw [h, max_eq_right h1],
    fun h1 => by rw [h, max_eq_left h1.le]⟩

/-- Witness for C5 amended at the concrete key `'+'` and the initial state. -/
theorem claim_C5_witness :
    (Key.plus = Key.plus ∨ Key.plus = Key.minus) ∧
    ((on_key_press Key.plus exInit).u_scale.2 = max 1 exInit.u_scale.2 ∧
     (1 ≤ exInit.u_scale.2 → (on_key_press Key.plus exInit).u_scale.2 = exInit.u_scale.2) ∧
     (exInit.u_scale.2 < 1 → (on_key_press Key.plus exInit).u_scale.2 = 1)) :=
  ⟨Or.inl rfl, claim_C5_amended Key.plus exInit (Or.inl rfl)⟩

/-- C6: after any sequence of key-press and scroll events from the freshly
constructed state, the time-axis scale is at least 1 and the
amplitude-axis scale at least 0.01. -/
theorem claim_C6 (evs : List Ev) :
    1 ≤ (runEvents evs exInit).u_scale.1 ∧
    0.01 ≤ (runEvents evs exInit).u_scale.2 :=
  runEvents_scale_bounds evs exInit (le_refl 1)
    (by show (0.01 : ℝ) ≤ 1; norm_num)

/-- C7: for every real standard-deviation input the quality category lies
in [0, 10] (indeed in [0, 9]), so indexing the 11-entry quality palette
never goes out of bounds. -/
theorem claim_C7 (sd : ℝ) :
    0 ≤ co sd ∧ co sd ≤ 10 ∧
    (co sd).toNat < ((color_palette "RdYlGn" 11).reverse).length := by
  obtain ⟨h0, h9⟩ := co_bounds sd
  have hlen : ((color_palette "RdYlGn" 11).reverse).length = 11 := by
    simp [color_palette]
  refine ⟨h0, by omega, ?_⟩
  rw [hlen]
  omega

/-- The snapshot used for the C4 counterexample: three rows for a plotter
constructed with two samples per channel. -/
def snapC4 : Snapshot := ⟨3, 2, fun _ _ => 0⟩

/-- C4 counterexample: an update-frame whose snapshot has three rows (the
data source has accumulated more samples than the construction-time
`n_points = 2`) rewrites the position buffer with 1 × 3 = 3 amplitudes, so
the buffer length is no longer `n_lines * n_points = 2` — `set_data`
resizes the buffer to the new data. -/
theorem claim_C4_counterexample :
    (update_plot snapC4 exState1).a_position.length ≠
      exState1.n_lines * exState1.n_points := by
  have h1 : (update_plot snapC4 exState1).a_position.length = 3 := by
    have hpos : (update_plot snapC4 exState1).a_position =
        ravel2d (snapC4.cols - 1) snapC4.rows
          (fun c r => plotDataAt snapC4 exState1.scaleParam r c) := rfl
    rw [hpos, length_ravel2d]
    rfl
  have h2 : exState1.n_lines * exState1.n_points = 2 := rfl
  rw [h1, h2]
  omega

lemma update_plot_length (sn : Snapshot) (st : LinesState) :
    (update_plot sn st).a_position.length = (sn.cols - 1) * sn.rows := by
  have hpos : (update_plot sn st).a_position =
      ravel2d (sn.cols - 1) sn.rows
        (fun c r => plotDataAt sn st.scaleParam r c) := rfl
  rw [hpos, length_ravel2d]

lemma runUpdates_shape_length (snaps : List Snapshot) :
    ∀ s : LinesState, s.a_position.length = s.n_lines * s.n_points →
      snaps.all (fun s2 => s2.rows == s.n_points && s2.cols == s.n_lines + 1) = true →
      (runUpdates snaps s).a_position.length = s.n_lines * s.n_points := by
  induction snaps with
  | nil => intro s h0 _; exact h0
  | cons sn rest ih =>
    intro s h0 hshape
    simp only [List.all_cons, Bool.and_eq_true, beq_iff_eq] at hshape
    obtain ⟨⟨hr, hc⟩, hrest⟩ := hshape
    have hstep : (update_plot sn s).a_position.length = s.n_lines * s.n_points := by
      rw [update_plot_length, hr, hc, Nat.add_sub_cancel]
    have hrest' : rest.all
        (fun s2 => s2.rows == (update_plot sn s).n_points &&
          s2.cols == (update_plot sn s).n_lines + 1) = true := hrest
    have h0' : (update_plot sn s).a_position.length =
        (update_plot sn s).n_lines * (update_plot sn s).n_points := hstep
    exact ih (update_plot sn s) h0' hrest'

/-- C4 amended: after an update-frame on any snapshot the amplitude buffer
holds (snapshot column count − 1) × (snapshot row count) values — `set_data`
resizes the buffer to the written data — and consequently the claimed
invariant `n_lines * n_points` does hold over an update sequence whenever
every snapshot has the construction-time shape (`n_points` rows and
`n_lines + 1` columns). -/
theorem claim_C4_amended (s : LinesState) (snaps : List Snapshot) (sn : Snapshot)
    (h0 : s.a_position.length = s.n_lines * s.n_points)
    (hshape : snaps.all
      (fun s2 => s2.rows == s.n_points && s2.cols == s.n_lines + 1) = true) :
    (update_plot sn s).a_position.length = (sn.cols - 1) * sn.rows ∧
    (runUpdates snaps s).a_position.length = s.n_lines * s.n_points :=
  ⟨update_plot_length sn s, runUpdates_shape_length snaps s h0 hshape⟩

/-- A pair of construction-shaped snapshots used to witness C4 amended. -/
def snapsC4W : List Snapshot := [⟨2, 2, fun _ _ => 0⟩, ⟨2, 2, fun _ _ => 1⟩]

/-- Witness for C4 amended: a concrete two-frame construction-shaped update
sequence keeps the invariant, while the per-frame length formula is
instantiated at the three-row snapshot `snapC4`. -/
theorem claim_C4_witness :
    (exState1.a_position.length = exState1.n_lines * exState1.n_points ∧
     snapsC4W.all
       (fun s2 => s2.rows == exState1.n_points && s2.cols == exState1.n_lines + 1) = true) ∧
    ((update_plot snapC4 exState1).a_position.length = (snapC4.cols - 1) * snapC4.rows ∧
     (runUpdates snapsC4W exState1).a_position.length =
       exState1.n_lines * exState1.n_points) :=
  ⟨⟨rfl, rfl⟩, claim_C4_amended exState1 snapsC4W snapC4 rfl rfl⟩

/-- C8: after an update-frame on any snapshot, the amplitude buffer entry
at position `c * rows + t` (channel-major, time-minor layout) is the
snapshot entry at row `t` of column `c + 1` (the leading index column is
dropped), centered by that column's overall mean and divided by the scale
constant; the buffer holds exactly (cols − 1) × rows amplitudes. -/
theorem claim_C8 (snap : Snapshot) (s : LinesState) (c t : ℕ)
    (hc : c < snap.cols - 1) (ht : t < snap.rows) :
    (update_plot snap s).a_position[c * snap.rows + t]? =
      some ((snap.entry t (c + 1) -
        (∑ r ∈ Finset.range snap.rows, snap.entry r (c + 1)) / snap.rows) /
          s.scaleParam) ∧
    (update_plot snap s).a_position.length = (snap.cols - 1) * snap.rows := by
  have hpos : (update_plot snap s).a_position =
      ravel2d (snap.cols - 1) snap.rows
        (fun c r => plotDataAt snap s.scaleParam r c) := rfl
  constructor
  · rw [hpos, getElem?_ravel2d _ _ _ c t hc ht]
    rfl
  · rw [hpos, length_ravel2d]

/-- The snapshot used to witness C8: two rows, one channel whose value at
row `r` is `r`. -/
def snapC8 : Snapshot := ⟨2, 2, fun r _ => (r : ℝ)⟩

/-- Witness for C8 at channel 0, row 1 of a concrete snapshot. -/
theorem claim_C8_witness :
    (0 < snapC8.cols - 1 ∧ 1 < snapC8.rows) ∧
    ((update_plot snapC8 exState1).a_position[0 * snapC8.rows + 1]? =
      some ((snapC8.entry 1 (0 + 1) -
        (∑ r ∈ Finset.range snapC8.rows, snapC8.entry r (0 + 1)) / snapC8.rows) /
          exState1.scaleParam) ∧
     (update_plot snapC8 exState1).a_position.length =
       (snapC8.cols - 1) * snapC8.rows) :=
  ⟨⟨by decide, by decide⟩, claim_C8 snapC8 exState1 0 1 (by decide) (by decide)⟩

/-- C9: with a single registered data source (so the cycle has yielded
index 0 and the active index is 0), a `'D'` key press is a no-op: the
whole state — active source, cycle position, both gloo buffers, scale pair
and all label entities — is unchanged. -/
theorem claim_C9 (s : LinesState) (h1 : s.nSources = 1) (h2 : s.cyclePos = 0)
    (h3 : s.activeIdx = 0) : on_key_press Key.D s = s := by
  have h4 : (s.cyclePos + 1) % s.nSources = s.cyclePos := by rw [h1, h2]
  unfold on_key_press
  simp only [reduceCtorEq, or_self, ite_false, ite_true, reduceIte]
  rw [h4]
  have h5 : s.cyclePos = s.activeIdx := by rw [h2, h3]
  nth_rewrite 2 [h5]
  rfl

/-- Witness for C9 at a freshly constructed single-source state. -/
theorem claim_C9_witness :
    (exState1.nSources = 1 ∧ exState1.cyclePos = 0 ∧ exState1.activeIdx = 0) ∧
    on_key_press Key.D exState1 = exState1 :=
  ⟨⟨rfl, rfl, rfl⟩, claim_C9 exState1 rfl rfl rfl⟩

/-- C10: after an update-frame with a snapshot of matching shape, the
quality label at display index `l` shows the standard deviation, palette
color and font size of channel `n_lines − 1 − l` (the display reversal
`[::-1]`), while the name label at the same index keeps its own text but
takes color and font size from that mirrored channel's quality category. -/
theorem claim_C10 (snap : Snapshot) (s : LinesState) (l : ℕ)
    (hl : l < s.n_lines)
    (hql : s.quality.length = s.n_lines)
    (hnl : s.names.length = s.n_lines)
    (hch : snap.cols - 1 = s.n_lines) :
    ((update_plot snap s).quality.getD l defaultQL).shown =
      some (chanSd snap s.scaleParam (s.n_lines - 1 - l)) ∧
    ((update_plot snap s).quality.getD l defaultQL).color =
      s.quality_palette.getD
        (co (chanSd snap s.scaleParam (s.n_lines - 1 - l))).toNat white ∧
    ((update_plot snap s).quality.getD l defaultQL).font_size =
      some (12 + co (chanSd snap s.scaleParam (s.n_lines - 1 - l))) ∧
    ((update_plot snap s).names.getD l defaultNL).text =
      (s.names.getD l defaultNL).text ∧
    ((update_plot snap s).names.getD l defaultNL).color =
      s.quality_palette.getD
        (co (chanSd snap s.scaleParam (s.n_lines - 1 - l))).toNat white ∧
    ((update_plot snap s).names.getD l defaultNL).font_size =
      some (12 + co (chanSd snap s.scaleParam (s.n_lines - 1 - l))) := by
  have hq := update_plot_quality_getD snap s l (by rw [hql]; exact hl) hl
  have hn := update_plot_names_getD snap s l (by rw [hnl]; exact hl) hl
  have hidx : snap.cols - 1 - 1 - l = s.n_lines - 1 - l := by rw [hch]
  rw [hidx] at hq hn
  rw [hq, hn]
  exact ⟨rfl, rfl, rfl, rfl, rfl, rfl⟩

/-- The snapshot used to witness C10: two rows, two channels, all zero. -/
def snapC10 : Snapshot := ⟨2, 3, fun _ _ => 0⟩

/-- Witness for C10 at display index 0 of a two-channel state. -/
theorem claim_C10_witness :
    (0 < exState2.n_lines ∧ exState2.quality.length = exState2.n_lines ∧
     exState2.names.length = exState2.n_lines ∧
     snapC10.cols - 1 = exState2.n_lines) ∧
    (((update_plot snapC10 exState2).quality.getD 0 defaultQL).shown =
      some (chanSd snapC10 exState2.scaleParam (exState2.n_lines - 1 - 0)) ∧
    ((update_plot snapC10 exState2).quality.getD 0 defaultQL).color =
      exState2.quality_palette.getD
        (co (chanSd snapC10 exState2.scaleParam (exState2.n_lines - 1 - 0))).toNat white ∧
    ((update_plot snapC10 exState2).quality.getD 0 defaultQL).font_size =
      some (12 + co (chanSd snapC10 exState2.scaleParam (exState2.n_lines - 1 - 0))) ∧
    ((update_plot snapC10 exState2).names.getD 0 defaultNL).text =
      (exState2.names.getD 0 defaultNL).text ∧
    ((update_plot snapC10 exState2).names.getD 0 defaultNL).color =
      exState2.quality_palette.getD
        (co (chanSd snapC10 exState2.scaleParam (exState2.n_lines - 1 - 0))).toNat white ∧
    ((update_plot snapC10 exState2).names.getD 0 defaultNL).font_size =
      some (12 + co (chanSd snapC10 exState2.scaleParam (exState2.n_lines - 1 - 0)))) :=
  ⟨⟨by decide, by decide, by decide, by decide⟩,
    claim_C10 snapC10 exState2 0 (by decide) (by decide) (by decide) (by decide)⟩

end WizardHat
